import Mathlib

/-!
Verification of the feedback validation, aggregation and score-blending engine
of the ai-safety-score repository.

Conventions of the shallow embedding:
* Python floats are modelled as exact rationals (`ℚ`); Python ints as `ℤ`/`ℕ`.
* Timestamps (`django.utils.timezone.now()`, `created_at`, ...) are modelled as
  integer seconds; `timedelta.days` is floor division by 86400 (`Int.fdiv`,
  matching Python's floor semantics also for negative deltas), and a calendar
  date is modelled as the epoch-day number `t.fdiv 86400`.
* The Django ORM store (`Feedback.objects`) is an explicit `List Feedback`
  passed to every operation; `filter(...).count()` is `List.filter` + `length`;
  `field__range=(a, b)` is the inclusive test `a ≤ x ∧ x ≤ b` (SQL BETWEEN).
* Python's `round(x, n)` (round half to even on the mathematical value) is
  `roundTo n`; `round(math-sqrt-result, 2)` is `sqrtRound2` computed by integer
  square roots.
* A Python operation that can raise (`ZeroDivisionError` in
  `_get_feedbacks_in_radius`) returns an `Option`; the `try/except` in
  `get_location_feedback_summary` maps `none` to the empty summary.
-/

namespace AiSafetyScore

/-! ### Numeric helpers -/

/-- Round a rational to the nearest integer, ties to even: the value semantics
of Python's built-in `round` on exact inputs. -/
def roundHalfEven (q : ℚ) : ℤ :=
  let fl := ⌊q⌋
  let fr := q - fl
  if fr < 1/2 then fl
  else if 1/2 < fr then fl + 1
  else if fl % 2 = 0 then fl else fl + 1

/-- Python `round(q, n)` on an exact rational value. -/
def roundTo (n : ℕ) (q : ℚ) : ℚ :=
  (roundHalfEven (q * 10 ^ n) : ℚ) / 10 ^ n

/-- Fuel-driven linear search for the integer square root (the fuel bounds the
number of increments, so the recursion is structural and kernel-reducible). -/
def isqrtGo (A : ℕ) : ℕ → ℕ → ℕ
  | 0, k => k
  | fuel + 1, k => if (k + 1) * (k + 1) ≤ A then isqrtGo A fuel (k + 1) else k

/-- `⌊√A⌋` on naturals. -/
def isqrt (A : ℕ) : ℕ := isqrtGo A A 0

/-- Python `round(math.sqrt(v), 2)` for a nonnegative rational `v`, computed
exactly: `n = ⌊100·√v⌋` via integer square roots, then the comparison of
`100·√v` against `n + 1/2` is decided by comparing `(2n+1)^2` with `40000·v`
(ties round to even, Python's convention). -/
def sqrtRound2 (v : ℚ) : ℚ :=
  if ((2 * isqrt (⌊10000 * v⌋).toNat + 1 : ℕ) : ℚ) ^ 2 < 40000 * v then
    ((isqrt (⌊10000 * v⌋).toNat + 1 : ℕ) : ℚ) / 100
  else if ((2 * isqrt (⌊10000 * v⌋).toNat + 1 : ℕ) : ℚ) ^ 2 = 40000 * v then
    (if isqrt (⌊10000 * v⌋).toNat % 2 = 0 then
      ((isqrt (⌊10000 * v⌋).toNat : ℕ) : ℚ) / 100
     else ((isqrt (⌊10000 * v⌋).toNat + 1 : ℕ) : ℚ) / 100)
  else ((isqrt (⌊10000 * v⌋).toNat : ℕ) : ℚ) / 100

/-- `statistics.mean` on rationals. -/
def listMean (l : List ℚ) : ℚ := l.sum / l.length

/-- `statistics.median`: middle element of the sorted list for odd length,
average of the two middle elements for even length. -/
def listMedian (l : List ℚ) : ℚ :=
  let s := l.insertionSort (· ≤ ·)
  if l.length % 2 = 1 then s.getD (l.length / 2) 0
  else (s.getD (l.length / 2 - 1) 0 + s.getD (l.length / 2) 0) / 2

/-- The square of `statistics.stdev`: sample variance with denominator `n − 1`.
(`statistics.stdev l = √(sampleVariance l)`; the source only calls it with
`l.length > 1`.) -/
def sampleVariance (l : List ℚ) : ℚ :=
  (l.map (fun x => (x - listMean l) ^ 2)).sum / ((l.length : ℚ) - 1)

/-- Population variance (denominator `n`), stated from the spec's words
"population standard deviation" for comparison with the source's
`statistics.stdev`; the source itself never computes this. -/
def popVariance (l : List ℚ) : ℚ :=
  (l.map (fun x => (x - listMean l) ^ 2)).sum / (l.length : ℚ)

/-- Minimum of a list of integers (`min(ratings)`, only used on nonempty
lists). -/
def listMinInt (l : List ℤ) : ℤ :=
  match l with
  | [] => 0
  | x :: xs => xs.foldl min x

/-- Maximum of a list of integers (`max(ratings)`, only used on nonempty
lists). -/
def listMaxInt (l : List ℤ) : ℤ :=
  match l with
  | [] => 0
  | x :: xs => xs.foldl max x

/-- Epoch-day number of a timestamp: models taking the calendar date. -/
def dayOf (t : ℤ) : ℤ := t.fdiv 86400

/-- `(a - b).days` for two timestamps: Python `timedelta.days` floors. -/
def daysBetween (a b : ℤ) : ℤ := (a - b).fdiv 86400

/-! ### Data model (`api/models.py`, class `Feedback`) -/

/-- One stored feedback record (the fields of the Django `Feedback` model that
the validation/aggregation/scoring engine reads or writes). -/
structure Feedback where
  id : ℕ
  user_id : String
  latitude : ℚ
  longitude : ℚ
  rating : ℤ
  comment : String
  approval_status : String
  approved_by : String
  approved_at : Option ℤ
  rejected_by : String
  rejected_at : Option ℤ
  rejection_reason : String
  is_trusted_user : Bool
  created_at : ℤ
  updated_at : ℤ
  deriving Repr, DecidableEq

/-- A submission payload (`feedback_data` dict): a field that is absent or
`None` or unparseable is `none`; `comment`/`user_id` default to `""` via
`data.get(..., '')`. -/
structure Submission where
  latitude : Option ℚ
  longitude : Option ℚ
  rating : Option ℤ
  comment : String
  user_id : String
  deriving Repr, DecidableEq

/-! ### Validator (`api/services/feedback_validator.py`, class `FeedbackValidator`)

Each `_validate_*` check appends exactly one error message when it fails, so it
is modelled as `Option String` (`none` = check passed).  The regular-expression
matching of `self.suspicious_patterns` against the lowercased comment is
abstracted as a parameter `pat : String → Bool`; every theorem below holds for
an arbitrary matcher. -/

/-- The result triple of `validate_feedback`:
`(is_valid, validation_errors, approval_status)`. -/
structure ValidationResult where
  is_valid : Bool
  errors : List String
  approval_status : String
  deriving Repr, DecidableEq

/-- `_validate_basic_fields`: latitude, longitude, rating must be present and
non-`None`. -/
def validateBasicFields (data : Submission) : Option String :=
  let missing : List String :=
    (if data.latitude = none then ["latitude"] else []) ++
    (if data.longitude = none then ["longitude"] else []) ++
    (if data.rating = none then ["rating"] else [])
  if missing.isEmpty then none
  else some ("Missing required fields: " ++ String.intercalate ", " missing)

/-- `_validate_coordinates`: coordinate ranges; an unparseable value takes the
`except` branch ("Invalid coordinate format"). -/
def validateCoordinates (data : Submission) : Option String :=
  match data.latitude, data.longitude with
  | some lat, some lon =>
    if ¬(-90 ≤ lat ∧ lat ≤ 90) then
      some "Latitude must be between -90 and 90 degrees"
    else if ¬(-180 ≤ lon ∧ lon ≤ 180) then
      some "Longitude must be between -180 and 180 degrees"
    else none
  | _, _ => some "Invalid coordinate format"

/-- `_validate_rating`: integer in `[min_rating, max_rating] = [1, 10]`. -/
def validateRating (data : Submission) : Option String :=
  match data.rating with
  | some r =>
    if ¬(1 ≤ r ∧ r ≤ 10) then some "Rating must be between 1 and 10"
    else none
  | none => some "Invalid rating format"

/-- `_validate_content`: empty comments pass; otherwise the lowercased comment
must not match a suspicious pattern (`pat`) and must be at most 1000
characters. -/
def validateContent (pat : String → Bool) (data : Submission) : Option String :=
  let c := data.comment.toLower
  if c = "" then none
  else if pat c then some "Comment contains suspicious content"
  else if c.length > 1000 then some "Comment is too long (max 1000 characters)"
  else none

/-- `Feedback.objects.filter(user_id=..., created_at__date=today).count()`. -/
def userFeedbackCountToday (store : List Feedback) (uid : String) (now : ℤ) : ℕ :=
  (store.filter fun f => decide (f.user_id = uid ∧ dayOf f.created_at = dayOf now)).length

/-- `Feedback.objects.filter(latitude__range, longitude__range,
created_at__gte=one_hour_ago).count()` with the ±0.001° tolerance box. -/
def locationFeedbackCountLastHour (store : List Feedback) (lat lon : ℚ) (now : ℤ) : ℕ :=
  (store.filter fun f => decide
    (lat - 1/1000 ≤ f.latitude ∧ f.latitude ≤ lat + 1/1000 ∧
     lon - 1/1000 ≤ f.longitude ∧ f.longitude ≤ lon + 1/1000 ∧
     now - 3600 ≤ f.created_at)).length

/-- `_validate_rate_limits`: the per-user daily cap (10) is only checked for a
non-empty `user_id`; the per-location hourly cap is 5. -/
def validateRateLimits (store : List Feedback) (now : ℤ) (data : Submission) :
    Option String :=
  let uid := data.user_id
  let lat := (data.latitude).getD 0
  let lon := (data.longitude).getD 0
  if uid ≠ "" ∧ 10 ≤ userFeedbackCountToday store uid now then
    some "Daily feedback limit exceeded (10)"
  else if 5 ≤ locationFeedbackCountLastHour store lat lon now then
    some "Location feedback limit exceeded (5 per hour)"
  else none

/-- `_is_trusted_user`: non-empty `user_id` with at least
`trusted_user_threshold = 3` approved/auto_approved records. -/
def isTrustedUser (store : List Feedback) (uid : String) : Bool :=
  if uid = "" then false
  else decide (3 ≤ (store.filter fun f => decide
    (f.user_id = uid ∧
     (f.approval_status = "approved" ∨ f.approval_status = "auto_approved"))).length)

/-- `_is_new_user`: empty `user_id` counts as new; otherwise fewer than 3
records of any status. -/
def isNewUser (store : List Feedback) (uid : String) : Bool :=
  if uid = "" then true
  else decide ((store.filter fun f => decide (f.user_id = uid)).length < 3)

/-- Does an error message contain the substring "suspicious" (after
lowercasing), as tested by `_determine_approval_status`?  `s.splitOn sub`
has length > 1 exactly when `sub` occurs in `s`. -/
def mentionsSuspicious (e : String) : Bool :=
  (e.toLower.splitOn "suspicious").length > 1

/-- `_determine_approval_status` (the constant
`auto_approve_trusted_users = True` is inlined). -/
def determineApprovalStatus (store : List Feedback) (errors : List String)
    (uid : String) (rating : ℤ) : String :=
  if errors.any mentionsSuspicious then "pending"
  else if uid ≠ "" ∧ isTrustedUser store uid then "auto_approved"
  else if 2 ≤ rating ∧ rating ≤ 9 then "auto_approved"
  else if rating = 1 ∨ rating = 10 then "pending"
  else if uid ≠ "" ∧ isNewUser store uid then
    (if 3 ≤ rating ∧ rating ≤ 8 then "auto_approved" else "pending")
  else "auto_approved"

/-- `validate_feedback`: runs the five checks in order, returning
`(False, [error], 'rejected')` at the first failure; when all pass, the
approval status comes from `_determine_approval_status` (with the empty
accumulated error list) and the result is valid. -/
def validateFeedback (pat : String → Bool) (store : List Feedback) (now : ℤ)
    (data : Submission) : ValidationResult :=
  match validateBasicFields data with
  | some e => ⟨false, [e], "rejected"⟩
  | none =>
  match validateCoordinates data with
  | some e => ⟨false, [e], "rejected"⟩
  | none =>
  match validateRating data with
  | some e => ⟨false, [e], "rejected"⟩
  | none =>
  match validateContent pat data with
  | some e => ⟨false, [e], "rejected"⟩
  | none =>
  match validateRateLimits store now data with
  | some e => ⟨false, [e], "rejected"⟩
  | none =>
    ⟨true, [], determineApprovalStatus store [] data.user_id ((data.rating).getD 0)⟩

/-- `approve_feedback`: `Feedback.objects.get(id=...)` then unconditionally set
`approval_status = 'approved'`, `approved_by`, `approved_at = timezone.now()`
and save (which refreshes `updated_at`); returns `False` only when the id does
not exist. -/
def approveFeedback (store : List Feedback) (now : ℤ) (fid : ℕ)
    (admin : String) : Bool × List Feedback :=
  if store.any fun f => decide (f.id = fid) then
    (true, store.map fun f =>
      if f.id = fid then
        { f with approval_status := "approved", approved_by := admin,
                 approved_at := some now, updated_at := now }
      else f)
  else (false, store)

/-! ### Aggregator (`api/services/feedback_aggregation_service.py`,
class `FeedbackAggregationService`; thresholds: `min_feedback_threshold = 50`,
`max_feedback_age_days = 365`, `location_radius_meters = 100`,
`outlier_threshold = 2.0`) -/

/-- The denominator `111000.0 * abs(latitude / 90.0)` of the longitude-delta
conversion in `_get_feedbacks_in_radius`. -/
def lonDeltaDen (lat : ℚ) : ℚ := 111000 * |lat / 90|

/-- `_get_feedbacks_in_radius`: approved/auto_approved records inside the
degree bounding box, at most 365 days old.  Python raises `ZeroDivisionError`
when the longitude denominator is zero (latitude 0), modelled as `none`.
(The `order_by('-created_at')` of the source is omitted: every consumer of the
list computes an order-independent value.) -/
def getFeedbacksInRadius (store : List Feedback) (now : ℤ) (lat lon radius : ℚ) :
    Option (List Feedback) :=
  let latDelta := radius / 111000
  if lonDeltaDen lat = 0 then none
  else
    let lonDelta := radius / lonDeltaDen lat
    some (store.filter fun f => decide
      ((f.approval_status = "approved" ∨ f.approval_status = "auto_approved") ∧
       lat - latDelta ≤ f.latitude ∧ f.latitude ≤ lat + latDelta ∧
       lon - lonDelta ≤ f.longitude ∧ f.longitude ≤ lon + lonDelta ∧
       now - 365 * 86400 ≤ f.created_at))

/-- `_calculate_rating_distribution`: one bin per integer rating 1..10. -/
def ratingDistribution (ratings : List ℤ) : List (ℤ × ℕ) :=
  (List.range 10).map fun i => ((i : ℤ) + 1, ratings.count ((i : ℤ) + 1))

/-- `_count_outliers`: ratings deviating from the mean by more than
`2.0 * statistics.stdev`; 0 when fewer than 3 ratings.  The source compares
`abs(r − mean) > 2·√(sampleVariance)`; since both sides are nonnegative this
is decided by comparing squares: `(r − mean)² > 4·sampleVariance`. -/
def countOutliers (ratings : List ℚ) : ℕ :=
  if ratings.length < 3 then 0
  else
    let m := listMean ratings
    let v := sampleVariance ratings
    (ratings.filter fun r => decide (4 * v < (r - m) ^ 2)).length

/-- `_count_recent_feedbacks`: records at most 30 days old. -/
def countRecentFeedbacks (fs : List Feedback) (now : ℤ) : ℕ :=
  (fs.filter fun f => decide (now - 30 * 86400 ≤ f.created_at)).length

/-- `_calculate_trusted_user_ratio`. -/
def trustedUserRatio (fs : List Feedback) : ℚ :=
  if fs.isEmpty then 0
  else roundTo 2 (((fs.filter fun f => f.is_trusted_user).length : ℚ) / fs.length)

/-- `_calculate_data_freshness`: `max(0, 1 − avgAgeDays/365)` rounded to two
decimals. -/
def dataFreshness (fs : List Feedback) (now : ℤ) : ℚ :=
  if fs.isEmpty then 0
  else
    let totalAge : ℤ := (fs.map fun f => daysBetween now f.created_at).sum
    roundTo 2 (max 0 (1 - ((totalAge : ℚ) / fs.length) / 365))

/-- The recency·trust weight of one record in
`_calculate_location_safety_score`:
`max(0.1, 1 − days_old/365) * (1.5 if is_trusted_user else 1.0)`. -/
def feedbackWeight (now : ℤ) (f : Feedback) : ℚ :=
  max (1/10) (1 - (daysBetween now f.created_at : ℚ) / 365) *
    (if f.is_trusted_user then 3/2 else 1)

/-- `_calculate_location_safety_score`: recency/trust-weighted mean rating,
converted to the 0..1 scale, clamped and rounded to three decimals; neutral
0.5 for no records or zero total weight. -/
def locationSafetyScore (fs : List Feedback) (now : ℤ) : ℚ :=
  if fs.isEmpty then 1/2
  else
    let acc := fs.foldl
      (fun (a : ℚ × ℚ) f =>
        let w := feedbackWeight now f
        (a.1 + (f.rating : ℚ) * w, a.2 + w))
      (0, 0)
    if acc.2 = 0 then 1/2
    else roundTo 3 (max 0 (min 1 (acc.1 / acc.2 / 10)))

/-- `_generate_recommendations`. -/
def generateRecommendations (fs : List Feedback) (ratings : List ℚ) (now : ℤ) :
    List String :=
  if ratings.isEmpty then ["No feedback available for this location"]
  else
    let avg := listMean ratings
    let base :=
      if avg < 4 then ["Low safety rating - consider avoiding this area"]
      else if avg < 6 then ["Moderate safety rating - exercise caution"]
      else if 8 ≤ avg then ["High safety rating - generally safe area"]
      else []
    let recentNegative := (fs.filter fun f => decide
      (f.rating ≤ 3 ∧ now - 30 * 86400 ≤ f.created_at)).length
    let withNeg :=
      base ++ (if 0 < recentNegative then
        ["Recent negative feedback (" ++ toString recentNegative ++
          " reports in last 30 days)"] else [])
    withNeg ++ (if fs.length < 10 then
      ["Limited feedback data - more user input needed"] else [])

/-- The `location` sub-dictionary of a summary. -/
structure LocationInfo where
  latitude : ℚ
  longitude : ℚ
  radius_meters : ℚ
  deriving Repr, DecidableEq

/-- The `statistics` sub-dictionary of a summary. -/
structure LocationStats where
  average_rating : ℚ
  median_rating : ℚ
  rating_std_dev : ℚ
  min_rating : ℤ
  max_rating : ℤ
  rating_distribution : List (ℤ × ℕ)
  deriving Repr, DecidableEq

/-- The `quality_metrics` sub-dictionary of a summary. -/
structure QualityMetrics where
  outlier_count : ℕ
  recent_feedbacks : ℕ
  trusted_user_ratio : ℚ
  data_freshness : ℚ
  deriving Repr, DecidableEq

/-- The summary dictionary produced by `get_location_feedback_summary`. -/
structure FeedbackSummary where
  location : LocationInfo
  feedback_count : ℕ
  unique_users : ℕ
  meets_threshold : Bool
  statistics : LocationStats
  quality_metrics : QualityMetrics
  safety_score : ℚ
  recommendations : List String
  last_updated : ℤ
  deriving Repr, DecidableEq

/-- `_empty_feedback_summary`. -/
def emptyFeedbackSummary (now : ℤ) : FeedbackSummary where
  location := ⟨0, 0, 0⟩
  feedback_count := 0
  unique_users := 0
  meets_threshold := false
  statistics := ⟨0, 0, 0, 0, 0, []⟩
  quality_metrics := ⟨0, 0, 0, 0⟩
  safety_score := 1/2
  recommendations := []
  last_updated := now

/-- `len(set(f.user_id for f in feedbacks if f.user_id))`. -/
def uniqueUserCount (fs : List Feedback) : ℕ :=
  ((fs.filterMap fun f => if f.user_id = "" then none else some f.user_id).dedup).length

/-- `get_location_feedback_summary`: retrieval failure (the lat-0 division by
zero, caught by the surrounding `try/except`) and the no-records case both
yield the empty summary; otherwise the statistics are computed over the
retrieved records. -/
def getLocationFeedbackSummary (store : List Feedback) (now : ℤ)
    (lat lon radius : ℚ) : FeedbackSummary :=
  match getFeedbacksInRadius store now lat lon radius with
  | none => emptyFeedbackSummary now
  | some [] => emptyFeedbackSummary now
  | some fs =>
    let ratings : List ℤ := fs.map (·.rating)
    let ratingsQ : List ℚ := fs.map fun f => (f.rating : ℚ)
    { location := ⟨lat, lon, radius⟩
      feedback_count := fs.length
      unique_users := uniqueUserCount fs
      meets_threshold := decide (50 ≤ fs.length)
      statistics :=
        { average_rating := roundTo 2 (listMean ratingsQ)
          median_rating := listMedian ratingsQ
          rating_std_dev :=
            if 1 < ratings.length then sqrtRound2 (sampleVariance ratingsQ) else 0
          min_rating := listMinInt ratings
          max_rating := listMaxInt ratings
          rating_distribution := ratingDistribution ratings }
      quality_metrics :=
        { outlier_count := countOutliers ratingsQ
          recent_feedbacks := countRecentFeedbacks fs now
          trusted_user_ratio := trustedUserRatio fs
          data_freshness := dataFreshness fs now }
      safety_score := locationSafetyScore fs now
      recommendations := generateRecommendations fs ratingsQ now
      last_updated := now }

/-! ### Scoring engine (`api/services/scoring_engine.py`, class `ScoringEngine`)

The `features` dict is modelled as a lookup `String → Option ℚ`; the engine's
default weight table is the association list below (insertion order of the
Python dict literal).  The unused `profile` argument is omitted. -/

/-- The `self.weights` table of `ScoringEngine.__init__`. -/
def defaultWeights : List (String × ℚ) :=
  [("transport", 1/10), ("transport_density", 1/20), ("lighting", 3/20),
   ("visibility", 1/10), ("natural_surveillance", 1/10), ("sidewalks", 1/20),
   ("businesses", 1/20), ("police_stations", 3/20), ("hospitals", 1/10),
   ("crime_rate", 3/20), ("user_feedback", 1/5)]

/-- `ScoringEngine.score`: weighted sum of the recognized, clamped features
(weather multiplier on lighting/visibility, incident multiplier on
crime_rate), normalized to a 1..10 score; 5.0 when no recognized feature is
present.  Returns `(final_score, adjustment_index)`. -/
def engineScore (features : String → Option ℚ) (weather_mul incident_mul : ℚ) :
    ℚ × ℚ :=
  let acc := defaultWeights.foldl
    (fun (a : ℚ × ℚ) fw =>
      match features fw.1 with
      | none => a
      | some raw =>
        let value := max 0 (min 1 raw)
        let v1 := if fw.1 = "lighting" ∨ fw.1 = "visibility"
                  then value * weather_mul else value
        let v2 := if fw.1 = "crime_rate" then v1 * incident_mul else v1
        (a.1 + v2 * fw.2, a.2 + fw.2))
    (0, 0)
  let finalScore := if 0 < acc.2 then acc.1 / acc.2 * 10 else 5
  (max 1 (min 10 finalScore), 1)

/-- The `feedback_info` dictionary assembled by
`score_with_location_feedback`. -/
structure FeedbackInfo where
  has_sufficient_feedback : Bool
  feedback_count : ℕ
  unique_users : ℕ
  average_rating : ℚ
  safety_score_from_feedback : ℚ
  scoring_method : String
  ai_score_weight : ℚ
  user_feedback_weight : ℚ
  deriving Repr, DecidableEq

/-- `score_with_location_feedback`: fetches the location summary (default
100 m radius), computes the base AI score, and blends
`base*0.6 + feedbackScore*10*0.4` when the summary meets the threshold, else
keeps the AI score; the result is clamped to [1, 10]. -/
def scoreWithLocationFeedback (store : List Feedback) (now : ℤ)
    (features : String → Option ℚ) (lat lon : ℚ)
    (weather_mul incident_mul : ℚ) : ℚ × ℚ × FeedbackInfo :=
  let summary := getLocationFeedbackSummary store now lat lon 100
  let base := engineScore features weather_mul incident_mul
  let info : FeedbackInfo :=
    { has_sufficient_feedback := summary.meets_threshold
      feedback_count := summary.feedback_count
      unique_users := summary.unique_users
      average_rating := summary.statistics.average_rating
      safety_score_from_feedback := summary.safety_score
      scoring_method := if summary.meets_threshold
        then "blended_ai_user_feedback" else "ai_only_insufficient_feedback"
      ai_score_weight := if summary.meets_threshold then 6/10 else 1
      user_feedback_weight := if summary.meets_threshold then 4/10 else 0 }
  let finalScore :=
    if summary.meets_threshold
    then base.1 * (6/10) + summary.safety_score * 10 * (4/10)
    else base.1
  (max 1 (min 10 finalScore), base.2, info)

/-! ### Spec-side comparison definitions

These two definitions follow the wording of the specification (for comparison
against the source-derived definitions above); the source never computes
them in this form. -/

/-- The feedback safety score exactly as the spec words it: the
recency·trust-weighted mean of the ratings, divided by 10 (no rounding, no
clamping). -/
def specWeightedSafetyScore (now : ℤ) (fs : List Feedback) : ℚ :=
  (fs.map fun f => (f.rating : ℚ) * feedbackWeight now f).sum /
    (fs.map fun f => feedbackWeight now f).sum / 10

/-! ### Concrete fixtures for witnesses and counterexamples -/

/-- A pattern matcher under which no comment is suspicious (the concrete
submissions below carry an empty comment, which `_validate_content` accepts
before ever consulting the patterns, so any matcher gives the same outcome). -/
def noPattern : String → Bool := fun _ => false

/-- Base approved record at (10, 10) from user "u1", rating 1, created at
epoch 0. -/
def fbBase : Feedback where
  id := 1
  user_id := "u1"
  latitude := 10
  longitude := 10
  rating := 1
  comment := ""
  approval_status := "approved"
  approved_by := ""
  approved_at := none
  rejected_by := ""
  rejected_at := none
  rejection_reason := ""
  is_trusted_user := false
  created_at := 0
  updated_at := 0

/-- 50 approved records, all from the single user "u1". -/
def store50 : List Feedback := List.replicate 50 { fbBase with rating := 9 }

/-- Two approved records with ratings 1 and 2. -/
def store2 : List Feedback := [fbBase, { fbBase with id := 2, rating := 2 }]

/-- Three approved records with ratings 1, 1, 2. -/
def store3 : List Feedback :=
  [fbBase, { fbBase with id := 2 }, { fbBase with id := 3, rating := 2 }]

/-- A rejected record with id 7. -/
def fbRejected : Feedback :=
  { fbBase with id := 7, approval_status := "rejected" }

/-- A pending record awaiting admin review. -/
def fbPending : Feedback :=
  { fbBase with approval_status := "pending" }

/-- An approved record at latitude 60, longitude 1.9: inside the spec's
1/cos(latitude)-corrected bounding box of a 111000 m query at (60, 0), but
outside the box the code actually builds. -/
def fbFar : Feedback :=
  { fbBase with latitude := 60, longitude := 19/10 }

/-- 10 records from user "u7" created at epoch 0 (one calendar day), located
away from (10, 10). -/
def store10u : List Feedback :=
  List.replicate 10 { fbBase with user_id := "u7", latitude := 50, longitude := 50 }

/-- 10 anonymous (empty `user_id`) records created at epoch 0, located away
from (10, 10). -/
def anonStore : List Feedback :=
  List.replicate 10 { fbBase with user_id := "", latitude := 50, longitude := 50 }

/-- A well-formed submission at (10, 10) with rating 5 and empty `user_id`. -/
def subAnon : Submission :=
  { latitude := some 10, longitude := some 10, rating := some 5,
    comment := "", user_id := "" }

/-- A well-formed submission at (10, 10) with rating 5 from user "u7". -/
def subU7 : Submission := { subAnon with user_id := "u7" }

/-- A well-formed submission at (10, 10) with the extreme rating 1 and empty
`user_id`. -/
def subOne : Submission := { subAnon with rating := some 1 }

/-! ## Theorems -/

set_option maxRecDepth 8000

/-- C5: in `score_with_location_feedback`, whenever the summary's
meets-threshold flag is true the final score is
`aiScore·0.6 + feedbackScore·10·0.4` clamped to [1, 10], and whenever it is
false the final score is the AI score alone clamped to [1, 10]. -/
theorem blended_score_formula (store : List Feedback) (now : ℤ)
    (features : String → Option ℚ) (lat lon weather_mul incident_mul : ℚ) :
    (scoreWithLocationFeedback store now features lat lon
        weather_mul incident_mul).1 =
      if (getLocationFeedbackSummary store now lat lon 100).meets_threshold then
        max 1 (min 10
          ((engineScore features weather_mul incident_mul).1 * (6/10) +
            (getLocationFeedbackSummary store now lat lon 100).safety_score
              * 10 * (4/10)))
      else
        max 1 (min 10 ((engineScore features weather_mul incident_mul).1)) := by
  unfold scoreWithLocationFeedback
  by_cases h : (getLocationFeedbackSummary store now lat lon 100).meets_threshold
  · simp [h]
  · simp [h]

/-- C9: with latitude exactly 0 the longitude-delta conversion divides by
`111000·|0/90| = 0`; the resulting error is caught and
`get_location_feedback_summary` returns the neutral empty summary, whatever
the store, radius and longitude are. -/
theorem equator_summary_is_empty (store : List Feedback) (now : ℤ)
    (lon radius : ℚ) :
    getLocationFeedbackSummary store now 0 lon radius =
      emptyFeedbackSummary now := by
  have h0 : lonDeltaDen 0 = 0 := by
    unfold lonDeltaDen
    norm_num
  unfold getLocationFeedbackSummary getFeedbacksInRadius
  simp [h0]

/-- C10: for a submission with empty `user_id` the per-user daily count is
never consulted: `_validate_rate_limits` degenerates to the per-location
hourly check alone, for every store state. -/
theorem anonymous_skips_user_limit (store : List Feedback) (now : ℤ)
    (sub : Submission) (h : sub.user_id = "") :
    validateRateLimits store now sub =
      (if 5 ≤ locationFeedbackCountLastHour store ((sub.latitude).getD 0)
          ((sub.longitude).getD 0) now
       then some "Location feedback limit exceeded (5 per hour)"
       else none) := by
  unfold validateRateLimits
  simp [h]

/-- C10 witness: the anonymous submission `subAnon` against a store already
holding 10 anonymous records of the same day. -/
theorem anonymous_skips_user_limit_witness :
    subAnon.user_id = "" ∧
    validateRateLimits anonStore 0 subAnon =
      (if 5 ≤ locationFeedbackCountLastHour anonStore ((subAnon.latitude).getD 0)
          ((subAnon.longitude).getD 0) 0
       then some "Location feedback limit exceeded (5 per hour)"
       else none) :=
  ⟨rfl, anonymous_skips_user_limit anonStore 0 subAnon rfl⟩

/-- C1 (amended): the summary's `meets_threshold` flag equals "at least 50
qualifying records were retrieved" — the total record count, not the
distinct-user count. -/
theorem meets_threshold_counts_records (store : List Feedback) (now : ℤ)
    (lat lon radius : ℚ) (fs : List Feedback)
    (h : getFeedbacksInRadius store now lat lon radius = some fs) :
    (getLocationFeedbackSummary store now lat lon radius).meets_threshold =
      decide (50 ≤ fs.length) := by
  unfold getLocationFeedbackSummary
  rw [h]
  cases fs with
  | nil => simp [emptyFeedbackSummary]
  | cons a l => rfl

/-- C1 witness: the 50-record single-user store. -/
theorem meets_threshold_counts_records_witness :
    getFeedbacksInRadius store50 0 10 10 100 = some store50 ∧
    (getLocationFeedbackSummary store50 0 10 10 100).meets_threshold =
      decide (50 ≤ store50.length) :=
  ⟨by with_unfolding_all decide,
   meets_threshold_counts_records store50 0 10 10 100 store50
     (by with_unfolding_all decide)⟩

/-- C1 counterexample: 50 qualifying records from one single user make
`meets_threshold` true although the distinct-user count is 1 < 50, refuting
"true iff the number of distinct users is at least 50". -/
theorem meets_threshold_distinct_users_counterexample :
    (getLocationFeedbackSummary store50 0 10 10 100).meets_threshold = true ∧
    (getLocationFeedbackSummary store50 0 10 10 100).unique_users = 1 ∧
    ¬(50 ≤ (getLocationFeedbackSummary store50 0 10 10 100).unique_users) := by
  refine ⟨?_, ?_, ?_⟩ <;> with_unfolding_all decide

/-- C2 (amended): `approve_feedback` is not gated on the pending state: for
every existing record id it unconditionally overwrites `approval_status` with
'approved' and `approved_at` with the current time (setting `approved_by` to
the actor), whatever the record's previous status; records with other ids are
untouched. -/
theorem approve_overwrites_unconditionally (store : List Feedback) (now : ℤ)
    (fid : ℕ) (admin : String) (h : ∃ f ∈ store, f.id = fid) :
    (approveFeedback store now fid admin).1 = true ∧
    ∀ g ∈ (approveFeedback store now fid admin).2,
      (g.id = fid → g.approval_status = "approved" ∧ g.approved_by = admin ∧
        g.approved_at = some now) ∧
      (g.id ≠ fid → g ∈ store) := by
  have hany : (store.any fun f => decide (f.id = fid)) = true := by
    rcases h with ⟨f, hf, hid⟩
    exact List.any_eq_true.mpr ⟨f, hf, by simp [hid]⟩
  unfold approveFeedback
  rw [if_pos hany]
  refine ⟨rfl, ?_⟩
  intro g hg
  rcases List.mem_map.mp hg with ⟨a, ha, rfl⟩
  by_cases haid : a.id = fid
  · rw [if_pos haid]
    exact ⟨fun _ => ⟨rfl, rfl, rfl⟩, fun hne => absurd haid hne⟩
  · rw [if_neg haid]
    exact ⟨fun hEq => absurd hEq haid, fun _ => ha⟩

/-- C2 witness: approving the rejected record with id 7 at time 5. -/
theorem approve_overwrites_unconditionally_witness :
    (∃ f ∈ [fbRejected], f.id = 7) ∧
    ((approveFeedback [fbRejected] 5 7 "admin").1 = true ∧
     ∀ g ∈ (approveFeedback [fbRejected] 5 7 "admin").2,
       (g.id = 7 → g.approval_status = "approved" ∧ g.approved_by = "admin" ∧
         g.approved_at = some 5) ∧
       (g.id ≠ 7 → g ∈ [fbRejected])) :=
  ⟨by with_unfolding_all decide,
   approve_overwrites_unconditionally [fbRejected] 5 7 "admin"
     (by with_unfolding_all decide)⟩

/-- C2 counterexample: approving the rejected record (id 7, not pending)
changes its `approval_status` to 'approved'; and after a first successful
approve of the pending record at time 0 (leaving it in 'approved', not
pending), a second approve at time 5 changes `approved_at` from `some 0` to
`some 5` — refuting the idempotent no-op claim on both fields. -/
theorem approve_not_idempotent_counterexample :
    fbRejected.approval_status = "rejected" ∧
    ((approveFeedback [fbRejected] 5 7 "admin").2.map
      (·.approval_status)) = ["approved"] ∧
    ((approveFeedback [fbPending] 0 1 "admin").2.map
      (·.approval_status)) = ["approved"] ∧
    ((approveFeedback [fbPending] 0 1 "admin").2.map
      (·.approved_at)) = [some 0] ∧
    ((approveFeedback (approveFeedback [fbPending] 0 1 "admin").2
        5 1 "admin").2.map (·.approved_at)) = [some 5] := by
  refine ⟨?_, ?_, ?_, ?_, ?_⟩ <;> with_unfolding_all decide

/-- C3 (amended): for nonzero query latitude, record retrieval filters by a
bounding box whose latitude half-width is `radius/111000` degrees and whose
longitude half-width is `radius/(111000·|latitude/90|)` degrees — the code
divides by `|latitude/90|`, not by `cos(latitude)`. -/
theorem feedbacks_in_radius_box (store : List Feedback) (now : ℤ)
    (lat lon radius : ℚ) (h : lat ≠ 0) :
    getFeedbacksInRadius store now lat lon radius =
      some (store.filter fun f => decide
        ((f.approval_status = "approved" ∨ f.approval_status = "auto_approved") ∧
         |f.latitude - lat| ≤ radius / 111000 ∧
         |f.longitude - lon| ≤ radius / (111000 * |lat / 90|) ∧
         now - 365 * 86400 ≤ f.created_at)) := by
  have hden : ¬(lonDeltaDen lat = 0) := by
    unfold lonDeltaDen
    simp only [mul_eq_zero, abs_eq_zero, div_eq_zero_iff]
    push_neg
    exact ⟨by norm_num, h, by norm_num⟩
  have key : ∀ f ∈ store,
      (decide
        ((f.approval_status = "approved" ∨ f.approval_status = "auto_approved") ∧
         lat - radius / 111000 ≤ f.latitude ∧
         f.latitude ≤ lat + radius / 111000 ∧
         lon - radius / lonDeltaDen lat ≤ f.longitude ∧
         f.longitude ≤ lon + radius / lonDeltaDen lat ∧
         now - 365 * 86400 ≤ f.created_at)) =
      (decide
        ((f.approval_status = "approved" ∨ f.approval_status = "auto_approved") ∧
         |f.latitude - lat| ≤ radius / 111000 ∧
         |f.longitude - lon| ≤ radius / (111000 * |lat / 90|) ∧
         now - 365 * 86400 ≤ f.created_at)) := by
    intro f _
    rw [decide_eq_decide]
    unfold lonDeltaDen
    constructor
    · rintro ⟨hs, h1, h2, h3, h4, h5⟩
      refine ⟨hs, ?_, ?_, h5⟩ <;> rw [abs_sub_le_iff] <;>
        exact ⟨by linarith, by linarith⟩
    · rintro ⟨hs, h1, h2, h3⟩
      rw [abs_sub_le_iff] at h1 h2
      exact ⟨hs, by linarith [h1.2], by linarith [h1.1], by linarith [h2.2],
        by linarith [h2.1], h3⟩
  unfold getFeedbacksInRadius
  rw [if_neg hden]
  exact congrArg some (List.filter_congr key)

/-- C3 witness: the query at (60, 0) with radius 111000 m over the
single-record store. -/
theorem feedbacks_in_radius_box_witness :
    (60 : ℚ) ≠ 0 ∧
    getFeedbacksInRadius [fbFar] 0 60 0 111000 =
      some (([fbFar]).filter fun f => decide
        ((f.approval_status = "approved" ∨ f.approval_status = "auto_approved") ∧
         |f.latitude - 60| ≤ 111000 / 111000 ∧
         |f.longitude - 0| ≤ 111000 / (111000 * |(60 : ℚ) / 90|) ∧
         (0 : ℤ) - 365 * 86400 ≤ f.created_at)) :=
  ⟨by norm_num, feedbacks_in_radius_box [fbFar] 0 60 0 111000 (by norm_num)⟩

/-- C3 counterexample: for the radius-111000 m query at (60, 0), the fresh
approved record `fbFar` at (60, 1.9) satisfies the spec's claimed bounding
box (longitude half-width `(111000/111000)·(1/cos 60°) = 2 ≥ 1.9` and
latitude half-width 1), yet retrieval returns the empty list — the code's
longitude half-width is `111000/(111000·|60/90|) = 1.5 < 1.9`. -/
theorem lon_delta_not_cosine_counterexample :
    getFeedbacksInRadius [fbFar] 0 60 0 111000 = some [] ∧
    fbFar.approval_status = "approved" ∧
    ((0 : ℤ) - 365 * 86400 ≤ fbFar.created_at) ∧
    |fbFar.latitude - 60| ≤ 111000 / 111000 ∧
    |(fbFar.longitude : ℝ) - 0| ≤
      (111000 / 111000) * (1 / Real.cos (60 * Real.pi / 180)) := by
  refine ⟨?_, ?_, ?_, ?_, ?_⟩
  · with_unfolding_all decide
  · with_unfolding_all decide
  · with_unfolding_all decide
  · with_unfolding_all decide
  · have hc : Real.cos (60 * Real.pi / 180) = 1/2 := by
      have harg : (60 : ℝ) * Real.pi / 180 = Real.pi / 3 := by ring
      rw [harg, Real.cos_pi_div_three]
    have hlon : fbFar.longitude = 19/10 := rfl
    rw [hlon, hc]
    push_cast
    rw [abs_of_nonneg (by norm_num : (0:ℝ) ≤ 19/10 - 0)]
    norm_num

/-- Helper: when all five validation checks pass, `validate_feedback` returns
valid with no errors and the status decided by `_determine_approval_status`
(invoked with the empty accumulated error list, as in the source). -/
theorem validateFeedback_pass (pat : String → Bool) (store : List Feedback)
    (now : ℤ) (sub : Submission)
    (h1 : validateBasicFields sub = none)
    (h2 : validateCoordinates sub = none)
    (h3 : validateRating sub = none)
    (h4 : validateContent pat sub = none)
    (h5 : validateRateLimits store now sub = none) :
    validateFeedback pat store now sub =
      ⟨true, [],
        determineApprovalStatus store [] sub.user_id ((sub.rating).getD 0)⟩ := by
  unfold validateFeedback
  rw [h1, h2, h3, h4, h5]

/-- C4: for a submission passing every structural, content and rate-limit
check: a trusted submitter is auto-approved; otherwise a rating in [2, 9] is
auto-approved; otherwise a rating of 1 or 10 is left pending. -/
theorem approval_status_rules (pat : String → Bool) (store : List Feedback)
    (now : ℤ) (sub : Submission) (r : ℤ)
    (h1 : validateBasicFields sub = none)
    (h2 : validateCoordinates sub = none)
    (h3 : validateRating sub = none)
    (h4 : validateContent pat sub = none)
    (h5 : validateRateLimits store now sub = none)
    (hr : sub.rating = some r) :
    (isTrustedUser store sub.user_id = true →
      (validateFeedback pat store now sub).approval_status = "auto_approved") ∧
    (isTrustedUser store sub.user_id = false → 2 ≤ r → r ≤ 9 →
      (validateFeedback pat store now sub).approval_status = "auto_approved") ∧
    (isTrustedUser store sub.user_id = false → ¬(2 ≤ r ∧ r ≤ 9) →
      (r = 1 ∨ r = 10) →
      (validateFeedback pat store now sub).approval_status = "pending") := by
  rw [validateFeedback_pass pat store now sub h1 h2 h3 h4 h5]
  simp only [hr, Option.getD_some]
  refine ⟨?_, ?_, ?_⟩
  · intro ht
    have hne : sub.user_id ≠ "" := by
      intro he
      rw [he] at ht
      simp [isTrustedUser] at ht
    simp [determineApprovalStatus, mentionsSuspicious, ht, hne]
  · intro ht hlo hhi
    simp [determineApprovalStatus, mentionsSuspicious, ht, hlo, hhi]
  · intro ht hnot hext
    simp [determineApprovalStatus, mentionsSuspicious, ht, hnot, hext]

/-- C4 witness: the extreme-rating anonymous submission `subOne` against the
empty store is left pending. -/
theorem approval_status_rules_witness :
    validateBasicFields subOne = none ∧
    validateCoordinates subOne = none ∧
    validateRating subOne = none ∧
    validateContent noPattern subOne = none ∧
    validateRateLimits [] 0 subOne = none ∧
    subOne.rating = some 1 ∧
    ((isTrustedUser [] subOne.user_id = true →
        (validateFeedback noPattern [] 0 subOne).approval_status =
          "auto_approved") ∧
     (isTrustedUser [] subOne.user_id = false → 2 ≤ (1 : ℤ) → (1 : ℤ) ≤ 9 →
        (validateFeedback noPattern [] 0 subOne).approval_status =
          "auto_approved") ∧
     (isTrustedUser [] subOne.user_id = false → ¬(2 ≤ (1 : ℤ) ∧ (1 : ℤ) ≤ 9) →
        ((1 : ℤ) = 1 ∨ (1 : ℤ) = 10) →
        (validateFeedback noPattern [] 0 subOne).approval_status = "pending")) :=
  ⟨by with_unfolding_all decide, by with_unfolding_all decide,
   by with_unfolding_all decide, by with_unfolding_all decide,
   by with_unfolding_all decide, rfl,
   approval_status_rules noPattern [] 0 subOne 1
     (by with_unfolding_all decide) (by with_unfolding_all decide)
     (by with_unfolding_all decide) (by with_unfolding_all decide)
     (by with_unfolding_all decide) rfl⟩

/-- C7 (amended): for a submission with a NON-empty `user_id` that passes the
field, coordinate, rating and content checks, once 10 records of that user
carry a `created_at` of the current calendar day, validation rejects it with
the daily-limit error. -/
theorem daily_limit_rejects_eleventh (pat : String → Bool)
    (store : List Feedback) (now : ℤ) (sub : Submission)
    (h1 : validateBasicFields sub = none)
    (h2 : validateCoordinates sub = none)
    (h3 : validateRating sub = none)
    (h4 : validateContent pat sub = none)
    (h5 : sub.user_id ≠ "")
    (h6 : 10 ≤ userFeedbackCountToday store sub.user_id now) :
    validateFeedback pat store now sub =
      ⟨false, ["Daily feedback limit exceeded (10)"], "rejected"⟩ := by
  have hrl : validateRateLimits store now sub =
      some "Daily feedback limit exceeded (10)" := by
    unfold validateRateLimits
    rw [if_pos ⟨h5, h6⟩]
  unfold validateFeedback
  rw [h1, h2, h3, h4, hrl]

/-- C7 witness: user "u7" already has 10 records today; the well-formed
submission `subU7` is rejected with the daily-limit error. -/
theorem daily_limit_rejects_eleventh_witness :
    validateBasicFields subU7 = none ∧
    validateCoordinates subU7 = none ∧
    validateRating subU7 = none ∧
    validateContent noPattern subU7 = none ∧
    subU7.user_id ≠ "" ∧
    10 ≤ userFeedbackCountToday store10u subU7.user_id 0 ∧
    validateFeedback noPattern store10u 0 subU7 =
      ⟨false, ["Daily feedback limit exceeded (10)"], "rejected"⟩ :=
  ⟨by with_unfolding_all decide, by with_unfolding_all decide,
   by with_unfolding_all decide, by with_unfolding_all decide,
   by with_unfolding_all decide, by with_unfolding_all decide,
   daily_limit_rejects_eleventh noPattern store10u 0 subU7
     (by with_unfolding_all decide) (by with_unfolding_all decide)
     (by with_unfolding_all decide) (by with_unfolding_all decide)
     (by with_unfolding_all decide) (by with_unfolding_all decide)⟩

/-- C7 counterexample: with the EMPTY `user_id`, 10 same-day records do not
block the 11th same-day submission — it passes validation and is
auto-approved, refuting the claim's universal quantification over every
`user_id`. -/
theorem daily_limit_anonymous_counterexample :
    userFeedbackCountToday anonStore "" 0 = 10 ∧
    subAnon.user_id = "" ∧
    validateFeedback noPattern anonStore 0 subAnon =
      ⟨true, [], "auto_approved"⟩ := by
  refine ⟨?_, ?_, ?_⟩ <;> with_unfolding_all decide

/-- Helper: the accumulator loop of `_calculate_location_safety_score` is the
pair of a weighted rating sum and a weight sum. -/
theorem safety_foldl_eq (now : ℤ) (fs : List Feedback) (a b : ℚ) :
    (fs.foldl
      (fun (p : ℚ × ℚ) f =>
        let w := feedbackWeight now f
        (p.1 + (f.rating : ℚ) * w, p.2 + w))
      (a, b)) =
      (a + (fs.map fun f => (f.rating : ℚ) * feedbackWeight now f).sum,
       b + (fs.map fun f => feedbackWeight now f).sum) := by
  induction fs generalizing a b with
  | nil => simp
  | cons f t ih =>
    simp only [List.foldl_cons, List.map_cons, List.sum_cons, ih]
    rw [Prod.ext_iff]
    exact ⟨by ring, by ring⟩

/-- Helper: every record weight is at least 0.1 (the recency floor times a
trust factor of at least 1). -/
theorem feedbackWeight_ge (now : ℤ) (f : Feedback) :
    (1 : ℚ)/10 ≤ feedbackWeight now f := by
  unfold feedbackWeight
  have h1 : (1 : ℚ)/10 ≤
      max (1/10) (1 - (daysBetween now f.created_at : ℚ)/365) := le_max_left _ _
  cases hb : f.is_trusted_user
  · rw [if_neg Bool.false_ne_true, mul_one]
    linarith
  · rw [if_pos rfl]
    nlinarith

/-- Helper: the total weight of a nonempty record list is positive. -/
theorem weights_sum_pos (now : ℤ) (fs : List Feedback) (h : fs ≠ []) :
    0 < (fs.map fun f => feedbackWeight now f).sum := by
  cases fs with
  | nil => exact absurd rfl h
  | cons f t =>
    simp only [List.map_cons, List.sum_cons]
    have h1 := feedbackWeight_ge now f
    have h2 : 0 ≤ (t.map fun f => feedbackWeight now f).sum := by
      apply List.sum_nonneg
      intro x hx
      rcases List.mem_map.mp hx with ⟨g, _, rfl⟩
      linarith [feedbackWeight_ge now g]
    linarith

/-- C6 (amended): the summary's safety score is the recency·trust-weighted
mean of the ratings divided by 10, clamped to [0, 1] and ROUNDED to three
decimal places; with zero qualifying records it is the neutral 0.5. -/
theorem safety_score_weighted_mean_rounded (store : List Feedback) (now : ℤ)
    (lat lon radius : ℚ) (fs : List Feedback)
    (h : getFeedbacksInRadius store now lat lon radius = some fs) :
    (fs = [] →
      (getLocationFeedbackSummary store now lat lon radius).safety_score = 1/2) ∧
    (fs ≠ [] →
      (getLocationFeedbackSummary store now lat lon radius).safety_score =
        roundTo 3 (max 0 (min 1 (specWeightedSafetyScore now fs)))) := by
  constructor
  · rintro rfl
    unfold getLocationFeedbackSummary
    rw [h]
    rfl
  · intro hne
    unfold getLocationFeedbackSummary
    rw [h]
    cases fs with
    | nil => exact absurd rfl hne
    | cons f t =>
      show locationSafetyScore (f :: t) now = _
      unfold locationSafetyScore
      rw [if_neg (by simp)]
      rw [safety_foldl_eq]
      have hpos := weights_sum_pos now (f :: t) (by simp)
      rw [if_neg (by simpa using ne_of_gt hpos)]
      unfold specWeightedSafetyScore
      simp

/-- C6 witness: the three-record store with ratings 1, 1, 2. -/
theorem safety_score_weighted_mean_rounded_witness :
    getFeedbacksInRadius store3 0 10 10 100 = some store3 ∧
    ((store3 = [] →
       (getLocationFeedbackSummary store3 0 10 10 100).safety_score = 1/2) ∧
     (store3 ≠ [] →
       (getLocationFeedbackSummary store3 0 10 10 100).safety_score =
         roundTo 3 (max 0 (min 1 (specWeightedSafetyScore 0 store3))))) :=
  ⟨by with_unfolding_all decide,
   safety_score_weighted_mean_rounded store3 0 10 10 100 store3
     (by with_unfolding_all decide)⟩

/-- C6 counterexample: for the ratings 1, 1, 2 (all of weight 1) the weighted
mean divided by 10 is 2/15 = 0.1333..., but the summary reports the rounded
value 0.133 ≠ 2/15, refuting exact equality with the weighted mean. -/
theorem safety_score_rounding_counterexample :
    (getLocationFeedbackSummary store3 0 10 10 100).safety_score = 133/1000 ∧
    specWeightedSafetyScore 0 store3 = 2/15 ∧
    (133/1000 : ℚ) ≠ 2/15 := by
  refine ⟨?_, ?_, ?_⟩ <;> with_unfolding_all decide

/-- Helper: correctness of the fuel-driven integer square root search. -/
theorem isqrtGo_spec (A : ℕ) :
    ∀ fuel k, k * k ≤ A → A < (k + fuel + 1) * (k + fuel + 1) →
      isqrtGo A fuel k * isqrtGo A fuel k ≤ A ∧
        A < (isqrtGo A fuel k + 1) * (isqrtGo A fuel k + 1) := by
  intro fuel
  induction fuel with
  | zero =>
    intro k h1 h2
    exact ⟨h1, by simpa using h2⟩
  | succ m ih =>
    intro k h1 h2
    by_cases hk : (k + 1) * (k + 1) ≤ A
    · rw [isqrtGo, if_pos hk]
      apply ih (k + 1) hk
      have harith : k + 1 + m + 1 = k + (m + 1) + 1 := by omega
      rw [harith]
      exact h2
    · rw [isqrtGo, if_neg hk]
      exact ⟨h1, Nat.lt_of_not_le hk⟩

/-- Helper: `isqrt A` is the integer square root of `A`. -/
theorem isqrt_spec (A : ℕ) :
    isqrt A * isqrt A ≤ A ∧ A < (isqrt A + 1) * (isqrt A + 1) := by
  unfold isqrt
  apply isqrtGo_spec A A 0 (by simp)
  have h1 : A + 1 ≤ (A + 1) * (A + 1) := Nat.le_mul_of_pos_left _ (by omega)
  simpa using by omega

/-- Helper: for nonnegative `v`, `isqrt ⌊10000·v⌋` brackets `100·√v`. -/
theorem isqrt_floor_bracket (v : ℚ) (hv : 0 ≤ v) :
    ((isqrt (⌊10000 * v⌋).toNat : ℝ) ≤ 100 * Real.sqrt (v : ℝ)) ∧
      (100 * Real.sqrt (v : ℝ) < (isqrt (⌊10000 * v⌋).toNat : ℝ) + 1) := by
  obtain ⟨hle, hlt⟩ := isqrt_spec (⌊10000 * v⌋).toNat
  have hfnn : (0 : ℤ) ≤ ⌊10000 * v⌋ := Int.floor_nonneg.mpr (by positivity)
  have hfl : ((⌊10000 * v⌋).toNat : ℤ) = ⌊10000 * v⌋ := Int.toNat_of_nonneg hfnn
  set n : ℕ := isqrt (⌊10000 * v⌋).toNat with hn
  have h1 : ((n : ℚ)) ^ 2 ≤ 10000 * v := by
    have hz : ((n * n : ℕ) : ℤ) ≤ ⌊10000 * v⌋ := by
      rw [← hfl]
      exact_mod_cast hle
    have := Int.le_floor.mp hz
    push_cast at this
    nlinarith [this]
  have h2 : 10000 * v < ((n : ℚ) + 1) ^ 2 := by
    have hz : ⌊10000 * v⌋ < (((n + 1) * (n + 1) : ℕ) : ℤ) := by
      rw [← hfl]
      exact_mod_cast hlt
    have := Int.floor_lt.mp hz
    push_cast at this
    nlinarith [this]
  have h1R : ((n : ℝ)) ^ 2 ≤ 10000 * (v : ℝ) := by exact_mod_cast h1
  have h2R : 10000 * (v : ℝ) < ((n : ℝ) + 1) ^ 2 := by exact_mod_cast h2
  have hsq : Real.sqrt (10000 * (v : ℝ)) = 100 * Real.sqrt (v : ℝ) := by
    rw [show (10000 : ℝ) * (v : ℝ) = (100 : ℝ) ^ 2 * (v : ℝ) by norm_num,
      Real.sqrt_mul (by positivity), Real.sqrt_sq (by norm_num)]
  constructor
  · rw [← hsq]
    exact Real.le_sqrt_of_sq_le h1R
  · rw [← hsq]
    exact (Real.sqrt_lt' (by positivity)).mpr h2R

/-- Helper: `sqrtRound2 v` is within 1/200 of the true square root of a
nonnegative rational, i.e. it is `√v` correctly rounded to two decimal
places. -/
theorem sqrtRound2_approx (v : ℚ) (hv : 0 ≤ v) :
    |(sqrtRound2 v : ℝ) - Real.sqrt (v : ℝ)| ≤ 1/200 := by
  unfold sqrtRound2
  set n : ℕ := isqrt (⌊10000 * v⌋).toNat with hn
  obtain ⟨hbl, hbu⟩ := isqrt_floor_bracket v hv
  rw [← hn] at hbl hbu
  set x : ℝ := 100 * Real.sqrt (v : ℝ) with hx
  have hx0 : 0 ≤ x := by rw [hx]; positivity
  have hxsq : (2 * x) ^ 2 = 40000 * (v : ℝ) := by
    rw [hx, mul_pow, mul_pow, Real.sq_sqrt (by positivity)]
    ring
  have hsv : Real.sqrt (v : ℝ) = x / 100 := by rw [hx]; ring
  rw [hsv]
  split_ifs with hlt heq hpar
  · -- (2n+1)^2 < 40000 v : the code rounds up to (n+1)/100
    have hR : (2 * (n : ℝ) + 1) ^ 2 < (2 * x) ^ 2 := by
      rw [hxsq]
      have h' := hlt
      push_cast at h'
      exact_mod_cast h'
    have hlt2 : 2 * (n : ℝ) + 1 < 2 * x :=
      lt_of_pow_lt_pow_left₀ 2 (by positivity) hR
    push_cast
    rw [abs_le]
    constructor <;> linarith
  · -- exact tie, even n : x = n + 1/2 and the code keeps n/100
    have hR : (2 * (n : ℝ) + 1) ^ 2 = (2 * x) ^ 2 := by
      rw [hxsq]
      have h' := heq
      push_cast at h'
      exact_mod_cast h'
    have h1 : 2 * (n : ℝ) + 1 ≤ 2 * x :=
      le_of_pow_le_pow_left₀ two_ne_zero (by positivity) (le_of_eq hR)
    have h2 : 2 * x ≤ 2 * (n : ℝ) + 1 :=
      le_of_pow_le_pow_left₀ two_ne_zero (by positivity) (le_of_eq hR.symm)
    push_cast
    rw [abs_le]
    constructor <;> linarith
  · -- exact tie, odd n : x = n + 1/2 and the code rounds up to (n+1)/100
    have hR : (2 * (n : ℝ) + 1) ^ 2 = (2 * x) ^ 2 := by
      rw [hxsq]
      have h' := heq
      push_cast at h'
      exact_mod_cast h'
    have h1 : 2 * (n : ℝ) + 1 ≤ 2 * x :=
      le_of_pow_le_pow_left₀ two_ne_zero (by positivity) (le_of_eq hR)
    have h2 : 2 * x ≤ 2 * (n : ℝ) + 1 :=
      le_of_pow_le_pow_left₀ two_ne_zero (by positivity) (le_of_eq hR.symm)
    push_cast
    rw [abs_le]
    constructor <;> linarith
  · -- 40000 v < (2n+1)^2 : the code keeps n/100
    have hR : (2 * x) ^ 2 ≤ (2 * (n : ℝ) + 1) ^ 2 := by
      rw [hxsq]
      have h' := le_of_not_lt hlt
      push_cast at h'
      exact_mod_cast h'
    have hle2 : 2 * x ≤ 2 * (n : ℝ) + 1 :=
      le_of_pow_le_pow_left₀ two_ne_zero (by positivity) hR
    push_cast
    rw [abs_le]
    constructor <;> linarith

/-- Helper: `sqrtRound2` always returns an integer number of hundredths. -/
theorem sqrtRound2_form (v : ℚ) : ∃ k : ℕ, sqrtRound2 v = (k : ℚ) / 100 := by
  unfold sqrtRound2
  split_ifs <;> exact ⟨_, rfl⟩

/-- Helper: the sample variance of a list of at least two rationals is
nonnegative. -/
theorem sampleVariance_nonneg (l : List ℚ) (h : 2 ≤ l.length) :
    0 ≤ sampleVariance l := by
  unfold sampleVariance
  apply div_nonneg
  · apply List.sum_nonneg
    intro x hx
    rcases List.mem_map.mp hx with ⟨y, _, rfl⟩
    positivity
  · have : (2 : ℚ) ≤ (l.length : ℚ) := by exact_mod_cast h
    linarith

/-- Helper: for a successful nonempty retrieval, the reported standard
deviation is `sqrtRound2` of the sample variance when at least two ratings
are present, else 0. -/
theorem summary_std_dev_eq (store : List Feedback) (now : ℤ)
    (lat lon radius : ℚ) (fs : List Feedback)
    (h : getFeedbacksInRadius store now lat lon radius = some fs)
    (hne : fs ≠ []) :
    (getLocationFeedbackSummary store now lat lon radius).statistics.rating_std_dev =
      (if 1 < fs.length then
        sqrtRound2 (sampleVariance (fs.map fun f => (f.rating : ℚ)))
       else 0) := by
  unfold getLocationFeedbackSummary
  rw [h]
  cases fs with
  | nil => exact absurd rfl hne
  | cons f t =>
    show (if 1 < ((f :: t).map (·.rating)).length then _ else 0) = _
    rw [List.length_map]

/-- C8 (amended): the summary's reported rating standard deviation is the
SAMPLE standard deviation (denominator n−1) of the ratings rounded to two
decimal places (it lies within 1/200 of `√(sampleVariance)` and is an integer
number of hundredths), and it is 0 when at most one rating is present. -/
theorem std_dev_is_sample_stdev (store : List Feedback) (now : ℤ)
    (lat lon radius : ℚ) (fs : List Feedback)
    (h : getFeedbacksInRadius store now lat lon radius = some fs) :
    (fs.length ≤ 1 →
      (getLocationFeedbackSummary store now lat lon
        radius).statistics.rating_std_dev = 0) ∧
    (1 < fs.length →
      |(((getLocationFeedbackSummary store now lat lon
            radius).statistics.rating_std_dev : ℚ) : ℝ) -
          Real.sqrt ((sampleVariance (fs.map fun f => (f.rating : ℚ)) : ℚ) : ℝ)|
        ≤ 1/200 ∧
      ∃ k : ℕ, (getLocationFeedbackSummary store now lat lon
        radius).statistics.rating_std_dev = (k : ℚ) / 100) := by
  constructor
  · intro hlen
    cases fs with
    | nil =>
      unfold getLocationFeedbackSummary
      rw [h]
      rfl
    | cons f t =>
      rw [summary_std_dev_eq store now lat lon radius (f :: t) h (by simp)]
      rw [if_neg (by simp only [List.length_cons] at hlen ⊢; omega)]
  · intro hlen
    have hne : fs ≠ [] := by
      intro he
      rw [he] at hlen
      simp at hlen
    rw [summary_std_dev_eq store now lat lon radius fs h hne, if_pos hlen]
    refine ⟨?_, sqrtRound2_form _⟩
    exact sqrtRound2_approx _
      (sampleVariance_nonneg _ (by rw [List.length_map]; omega))

/-- C8 witness: the two-record store with ratings 1 and 2. -/
theorem std_dev_is_sample_stdev_witness :
    getFeedbacksInRadius store2 0 10 10 100 = some store2 ∧
    ((store2.length ≤ 1 →
       (getLocationFeedbackSummary store2 0 10 10
         100).statistics.rating_std_dev = 0) ∧
     (1 < store2.length →
       |(((getLocationFeedbackSummary store2 0 10 10
             100).statistics.rating_std_dev : ℚ) : ℝ) -
           Real.sqrt ((sampleVariance (store2.map fun f => (f.rating : ℚ)) : ℚ) : ℝ)|
         ≤ 1/200 ∧
       ∃ k : ℕ, (getLocationFeedbackSummary store2 0 10 10
         100).statistics.rating_std_dev = (k : ℚ) / 100)) :=
  ⟨by with_unfolding_all decide,
   std_dev_is_sample_stdev store2 0 10 10 100 store2
     (by with_unfolding_all decide)⟩

/-- C8 counterexample: for ratings 1 and 2 the code reports 0.71 (the sample
standard deviation √(1/2) rounded to two decimals), while the population
standard deviation is √(1/4) = 0.5 — the two differ, refuting the claim that
the reported figure is the population standard deviation. -/
theorem std_dev_population_counterexample :
    (getLocationFeedbackSummary store2 0 10 10 100).statistics.rating_std_dev
      = 71/100 ∧
    Real.sqrt ((popVariance (store2.map fun f => (f.rating : ℚ)) : ℚ) : ℝ)
      = 1/2 ∧
    ((71/100 : ℚ) : ℝ) ≠ (1/2 : ℝ) := by
  refine ⟨?_, ?_, ?_⟩
  · with_unfolding_all decide
  · have hp : popVariance (store2.map fun f => (f.rating : ℚ)) = 1/4 := by
      with_unfolding_all decide
    rw [hp, show (((1 : ℚ)/4 : ℚ) : ℝ) = (1/2 : ℝ) ^ 2 by push_cast; norm_num]
    exact Real.sqrt_sq (by norm_num)
  · push_cast
    norm_num

end AiSafetyScore
